import Mathlib

/-!
Verification development for the llm-bench evaluation engine.

This file gives a shallow embedding of the three core components of the
benchmark: the test harnesses of `benchmarker/exercise.py`
(`create_code_execution_test` and `create_function_test`), the exercise
state machine (`Exercise` in the same file), and the response sanitizer
and per-exercise retry loop of `benchmarker/runner.py`
(`BenchmarkRunner.clean_code_response` and `BenchmarkRunner.run_exercise`).

Python values are modelled by the inductive type `Value`; the dynamic
execution of a submitted code string (Python `exec`/`eval`) cannot be
reimplemented inside Lean, so each harness is parameterised by the
semantics of that execution: a record giving the namespace, captured
stdout, and raised exceptions of the run.  Every piece of grading logic,
message construction and state transition is translated line by line from
the Python source.  All definitions are structurally recursive so that
concrete runs reduce inside the kernel.
-/

/-! ## String utilities modelling the Python `str` operations used by the code -/

/-- Characters stripped by Python `str.strip()` with no arguments. -/
def isPySpace (c : Char) : Bool :=
  c == ' ' || c == '\t' || c == '\n' || c == '\r' || c == '\x0b' || c == '\x0c'

/-- Python `str.strip()` on a character list. -/
def pyStripCs (cs : List Char) : List Char :=
  ((cs.dropWhile isPySpace).reverse.dropWhile isPySpace).reverse

/-- Python `str.strip()`. -/
def pyStrip (s : String) : String :=
  ⟨pyStripCs s.data⟩

/-- Python `str.split("\n")`: `""` yields `[""]`, separators are not kept. -/
def splitLinesCs : List Char → List (List Char)
  | [] => [[]]
  | c :: rest =>
    if c == '\n' then [] :: splitLinesCs rest
    else
      match splitLinesCs rest with
      | [] => [[c]]
      | l :: ls => (c :: l) :: ls

/-- Python `str.lower()` (ASCII letters, which is all the scanner compares). -/
def lowerCs (cs : List Char) : List Char :=
  cs.map Char.toLower

/-- Whether `pat` is a leading segment of `cs` (Python `str.startswith`). -/
def isPre : List Char → List Char → Bool
  | [], _ => true
  | _ :: _, [] => false
  | a :: as, b :: bs => a == b && isPre as bs

/-- Python substring membership `pat in cs`. -/
def containsSub : List Char → List Char → Bool
  | [], pat => pat == []
  | c :: rest, pat => isPre pat (c :: rest) || containsSub rest pat

/-- Python `pat in s` on strings. -/
def strContains (s pat : String) : Bool :=
  containsSub s.data pat.data

/-- Everything after the first occurrence of `pat`, if `pat` occurs
(Python `s.find(pat)` followed by slicing past the match). -/
def dropThroughCs (pat : List Char) : List Char → Option (List Char)
  | [] => none
  | c :: rest =>
    if isPre pat (c :: rest) then some (List.drop pat.length (c :: rest))
    else dropThroughCs pat rest

/-! ## Python values -/

mutual
/-- Model of the Python values that flow through the harnesses: integers,
strings, booleans, `None`, lists and tuples. -/
inductive Value where
  | int : Int → Value
  | str : String → Value
  | bool : Bool → Value
  | pynone : Value
  | list : ValueList → Value
  | tuple : ValueList → Value
deriving Repr, DecidableEq

/-- Spine of a Python list or tuple (kept as a mutual inductive so that the
recursive functions below are structural and reduce in the kernel). -/
inductive ValueList where
  | nil : ValueList
  | cons : Value → ValueList → ValueList
deriving Repr, DecidableEq
end

/-- Build a `ValueList` from a Lean list. -/
def ofVals : List Value → ValueList
  | [] => .nil
  | v :: rest => .cons v (ofVals rest)

/-- Length of a `ValueList` (Python `len`). -/
def vlen : ValueList → Nat
  | .nil => 0
  | .cons _ rest => vlen rest + 1

mutual
/-- Python `==` on the modelled values: numeric equality identifies `bool`
with `int` (`True == 1`), sequences compare elementwise, and a list is
never equal to a tuple. -/
def pyEq : Value → Value → Bool
  | .int a, .int b => a == b
  | .int a, .bool b => a == (if b then (1 : Int) else 0)
  | .bool a, .int b => (if a then (1 : Int) else 0) == b
  | .bool a, .bool b => a == b
  | .str a, .str b => a == b
  | .pynone, .pynone => true
  | .list a, .list b => pyEqList a b
  | .tuple a, .tuple b => pyEqList a b
  | _, _ => false

/-- Elementwise Python `==` on sequence spines. -/
def pyEqList : ValueList → ValueList → Bool
  | .nil, .nil => true
  | .cons a as, .cons b bs => pyEq a b && pyEqList as bs
  | _, _ => false
end

mutual
/-- Python `repr` of a value (strings are quoted, a one-element tuple
prints a trailing comma).  Escape sequences inside strings are not
modelled; no graded value needs them. -/
def pyRepr : Value → String
  | .int i => toString i
  | .str s => "'" ++ s ++ "'"
  | .bool b => if b then "True" else "False"
  | .pynone => "None"
  | .list vs => "[" ++ String.intercalate ", " (pyReprList vs) ++ "]"
  | .tuple (.cons v .nil) => "(" ++ pyRepr v ++ ",)"
  | .tuple vs => "(" ++ String.intercalate ", " (pyReprList vs) ++ ")"

/-- `repr` of each element of a sequence. -/
def pyReprList : ValueList → List String
  | .nil => []
  | .cons v rest => pyRepr v :: pyReprList rest
end

/-- Python `str` of a value: identical to `repr` except on strings, which
print unquoted.  Used for f-string interpolation in feedback messages. -/
def pyStr : Value → String
  | .str s => s
  | v => pyRepr v

/-- Digits of a decimal literal, or `none` when empty or non-numeric
(numeric-literal underscores are not modelled). -/
def digitsToNat : List Char → Option Nat
  | [] => none
  | cs => go cs 0
where
  go : List Char → Nat → Option Nat
    | [], acc => some acc
    | c :: rest, acc =>
      if c.isDigit then go rest (acc * 10 + (c.toNat - 48)) else none

/-- Python `int(s)`: surrounding whitespace is ignored, an optional sign is
followed by at least one digit; anything else raises `ValueError`,
modelled as `none`. -/
def parsePyInt (s : String) : Option Int :=
  match pyStripCs s.data with
  | [] => none
  | c :: rest =>
    if c == '-' then (digitsToNat rest).map (fun n => -(n : Int))
    else if c == '+' then (digitsToNat rest).map (fun n => (n : Int))
    else (digitsToNat (c :: rest)).map (fun n => (n : Int))

/-- Model of `type(expected_output)(output)` in `create_code_execution_test`:
the captured text is converted to the runtime type of the expected value.
`none` models the conversion raising (for example `int("hello")`, or
calling `NoneType`).  `list`/`tuple` of a string is its list of
one-character strings, `bool` of a string is its non-emptiness. -/
def coerce (expected : Value) (output : String) : Option Value :=
  match expected with
  | .int _ => (parsePyInt output).map Value.int
  | .str _ => some (.str output)
  | .bool _ => some (.bool (output != ""))
  | .pynone => none
  | .list _ => some (.list (ofVals (output.data.map fun c => Value.str ⟨[c]⟩)))
  | .tuple _ => some (.tuple (ofVals (output.data.map fun c => Value.str ⟨[c]⟩)))

/-! ## Results (`ExerciseStatus`, `ExerciseResult` of `benchmarker/exercise.py`) -/

/-- Status carried by an `ExerciseResult`. -/
inductive ExerciseStatus where
  | pending : ExerciseStatus
  | passed : ExerciseStatus
  | failed : ExerciseStatus
  | error : ExerciseStatus
deriving Repr, DecidableEq

/-- Result of executing an exercise attempt (`ExerciseResult` dataclass).
The `execution_time` float field is not modelled (wall-clock time);
no claim mentions it. -/
structure ExerciseResult where
  status : ExerciseStatus
  expected_output : Option Value := none
  actual_output : Option Value := none
  error_message : Option String := none
  code_generated : Option String := none
deriving Repr, DecidableEq

/-! ## Exceptions and namespaces of the dynamic execution -/

/-- A raised Python exception: the harness distinguishes `TypeError`
(caught by the calling-convention fallback) from every other exception. -/
inductive PyError where
  | typeError : String → PyError
  | otherError : String → PyError
deriving Repr, DecidableEq

/-- Message of an exception, Python `str(e)`. -/
def PyError.msg : PyError → String
  | .typeError m => m
  | .otherError m => m

/-- Decidable equality of execution outcomes, so that concrete runs can
be checked by evaluation. -/
instance exceptDecEq {ε α : Type} [DecidableEq ε] [DecidableEq α] :
    DecidableEq (Except ε α)
  | .ok x, .ok y =>
    if h : x = y then .isTrue (h ▸ rfl) else .isFalse fun hh => h (Except.ok.inj hh)
  | .error x, .error y =>
    if h : x = y then .isTrue (h ▸ rfl)
    else .isFalse fun hh => h (Except.error.inj hh)
  | .ok _, .error _ => .isFalse fun hh => Except.noConfusion hh
  | .error _, .ok _ => .isFalse fun hh => Except.noConfusion hh

/-- Variable bindings of an execution namespace. -/
abbrev NS := List (String × Value)

/-- Lookup in a namespace (Python `name in ns` / `ns[name]`). -/
def lookupNS {α : Type} : List (String × α) → String → Option α
  | [], _ => none
  | (k, v) :: rest, key => if k == key then some v else lookupNS rest key

/-! ## Raw-execution harness (`create_code_execution_test.test_function`) -/

/-- Setup script of a raw-execution exercise: its text (the harness only
tests whether the stripped text is non-empty) together with the outcome of
`exec(setup_code, {})` — the namespace it builds, or the exception it
raises. -/
structure SetupSem where
  text : String
  run : Except PyError NS

/-- Semantics of one submitted code string for the raw-execution harness:
`run ns` is the outcome of `exec(code, ns)` — the updated namespace and the
text captured from stdout, or a raised exception (a syntax error raises
before anything runs); `evalRun ns` is the outcome of `eval(code, ns)` on
the namespace left by the exec. -/
structure RawCodeSem where
  run : NS → Except PyError (NS × String)
  evalRun : NS → Except PyError Value

/-- Translation of the `test_function` closure built by
`create_code_execution_test` (exercise.py lines 163-222).  A fresh empty
namespace is used; the setup code runs first when its stripped text is
non-empty; stdout is captured during the exec of the submitted code.  When
the stripped output is non-empty it is coerced to the type of the expected
output, the raw text being compared on coercion failure; when it is empty
the variable `result` is looked up, and failing that the code is evaluated
as an expression (an eval exception is swallowed, leaving `None`).  The
actual and expected values are compared with Python `==`.  Exceptions of
the setup or of the exec are caught by the surrounding handler and
reported as an `error` result carrying `str(e)`. -/
def code_execution_test (expected_output : Value) (setup : SetupSem)
    (code : RawCodeSem) : ExerciseResult :=
  match (if pyStrip setup.text == "" then Except.ok ([] : NS) else setup.run) with
  | .error e => { status := .error, expected_output := some expected_output,
                  error_message := some e.msg }
  | .ok ns0 =>
    match code.run ns0 with
    | .error e => { status := .error, expected_output := some expected_output,
                    error_message := some e.msg }
    | .ok (ns, rawOut) =>
      let output := pyStrip rawOut
      let actual_output : Value :=
        if output == "" then
          match lookupNS ns "result" with
          | some v => v
          | none =>
            match code.evalRun ns with
            | .ok v => v
            | .error _ => Value.pynone
        else
          match coerce expected_output output with
          | some v => v
          | none => Value.str output
      if pyEq actual_output expected_output then
        { status := .passed, expected_output := some expected_output,
          actual_output := some actual_output }
      else
        { status := .failed, expected_output := some expected_output,
          actual_output := some actual_output }

/-! ## Named-function harness (`create_function_test.test_function`) -/

/-- One call the harness can make: the input as one positional argument, or
its elements unpacked as separate positional arguments (`func(*inputs)`). -/
inductive Call where
  | single : Value → Call
  | unpacked : ValueList → Call

/-- Behaviour of the function looked up in the executed namespace: every
call either returns a value or raises. -/
abbrev PyFunc := Call → Except PyError Value

/-- First calling convention tried (exercise.py lines 274-280): a tuple of
more than one element is unpacked, everything else — scalars, lists of any
length, tuples of at most one element — is passed as a single argument. -/
def primaryCall (inputs : Value) : Call :=
  match inputs with
  | .tuple vs => if 1 < vlen vs then .unpacked vs else .single inputs
  | _ => .single inputs

/-- Convention of the single fallback attempt after a `TypeError`
(exercise.py lines 284-292): a tuple of more than one element is now
passed whole; tuples of at most one element and lists are unpacked; any
other input is passed as a single argument again. -/
def fallbackCall (inputs : Value) : Call :=
  match inputs with
  | .tuple vs => if 1 < vlen vs then .single inputs else .unpacked vs
  | .list vs => .unpacked vs
  | _ => .single inputs

/-- Outcome of calling the function on one test-case input. -/
inductive CallOutcome where
  | ok : Value → CallOutcome
  | fallbackFailed : String → CallOutcome
  | raised : String → CallOutcome
deriving Repr, DecidableEq

/-- Calling discipline of the harness for one input: try `primaryCall`; a
`TypeError` triggers exactly one retry with `fallbackCall`, whose failure
(any exception) yields `fallbackFailed` carrying the message of the first
`TypeError`; any other exception of the first call escapes to the outer
handler (`raised`). -/
def gradedCall (f : PyFunc) (inputs : Value) : CallOutcome :=
  match f (primaryCall inputs) with
  | .ok v => .ok v
  | .error (.typeError m) =>
    match f (fallbackCall inputs) with
    | .ok v => .ok v
    | .error _ => .fallbackFailed m
  | .error (.otherError m) => .raised m

/-- One entry of the `test_cases` list: a dict which may or may not carry
the `input` and `output` keys (the harness checks both are present). -/
structure TestCaseDict where
  input : Option Value
  output : Option Value
deriving Repr, DecidableEq

/-- Grading loop over the test cases (exercise.py lines 260-311), carrying
the 0-based index `i` used in messages as `i + 1`.  The first case whose
actual value differs from the expected one stops grading with a `failed`
result carrying expected, actual and `"Test case N failed"`; exhausted
cases yield the all-passed result; exceptions yield `error` results. -/
def runCases (f : PyFunc) : Nat → List TestCaseDict → ExerciseResult
  | _, [] =>
    { status := .passed, expected_output := some (.str "All test cases passed"),
      actual_output := some (.str "All test cases passed") }
  | i, tc :: rest =>
    match tc.input, tc.output with
    | some inputs, some expected =>
      match gradedCall f inputs with
      | .ok actual =>
        if pyEq actual expected then runCases f (i + 1) rest
        else
          { status := .failed, expected_output := some expected,
            actual_output := some actual,
            error_message := some ("Test case " ++ toString (i + 1) ++ " failed") }
      | .fallbackFailed m =>
        { status := .error,
          error_message := some ("Test case " ++ toString (i + 1)
            ++ " failed to execute: " ++ m) }
      | .raised m => { status := .error, error_message := some m }
    | _, _ =>
      { status := .error,
        error_message := some ("Test case " ++ toString (i + 1)
          ++ " must have 'input' and 'output' fields") }

/-- Translation of the `test_function` closure built by
`create_function_test` (exercise.py lines 245-316), applied to a code
string whose `exec` semantics is `codeNs`: the namespace of named
functions the code defines, or the exception the exec raises.  A missing
function name is an `error`; otherwise the test cases are graded in
order. -/
def function_test (function_name : String) (test_cases : List TestCaseDict)
    (codeNs : Except PyError (List (String × PyFunc))) : ExerciseResult :=
  match codeNs with
  | .error e => { status := .error, error_message := some e.msg }
  | .ok ns =>
    match lookupNS ns function_name with
    | none =>
      { status := .error,
        error_message := some ("Function '" ++ function_name
          ++ "' not found in code") }
    | some f => runCases f 0 test_cases

/-- A test case the grading loop walks past: both fields present, the call
succeeds and the value compares equal to the expected output. -/
def casePasses (f : PyFunc) (tc : TestCaseDict) : Bool :=
  match tc.input, tc.output with
  | some inputs, some expected =>
    match gradedCall f inputs with
    | .ok v => pyEq v expected
    | _ => false
  | _, _ => false

/-! ## Exercise state machine (`Exercise` of `benchmarker/exercise.py`) -/

/-- One chat message, a role/content pair. -/
structure ChatMsg where
  role : String
  content : String
deriving Repr, DecidableEq

/-- State of one benchmark exercise.  `test_function` stands for the
grading closure the exercise was constructed with: it maps the submitted
code string to the result the harness produces for it. -/
structure Exercise where
  name : String
  description : String
  test_function : String → ExerciseResult
  max_attempts : Nat
  difficulty : String
  attempts : Nat
  results : List ExerciseResult
  chat_history : List ChatMsg

/-- Construction of an exercise (`Exercise.__init__`): counters and lists
start empty. -/
def mkExercise (name description : String) (tf : String → ExerciseResult)
    (max_attempts : Nat) (difficulty : String) : Exercise :=
  { name := name, description := description, test_function := tf,
    max_attempts := max_attempts, difficulty := difficulty,
    attempts := 0, results := [], chat_history := [] }

/-- Fixed system instruction of `Exercise.get_initial_messages`. -/
def systemPromptText : String :=
  "You are an expert Python programmer. Your task is to solve coding problems by writing clean, working Python code.\n\nIMPORTANT RULES:\n- Output ONLY the executable Python code, no markdown formatting\n- Do not include explanations, comments, or descriptions outside the code\n- Do not use ```python or ``` code blocks\n- The code should be ready to execute immediately\n- Focus on correctness and simplicity\n- If you make an error, learn from the feedback and fix it in the next attempt sending back the entire code.\n- Only the code in the last message you send will be executed."

/-- Two-message seed of the conversation (`Exercise.get_initial_messages`). -/
def get_initial_messages (ex : Exercise) : List ChatMsg :=
  [⟨"system", systemPromptText⟩,
   ⟨"user", "Solve this coding problem:\n\n" ++ ex.description
     ++ "\n\nProvide only the Python code that solves this problem."⟩]

/-- Body of the feedback user message around the diagnostic `error_info`
(the f-string of `Exercise.get_retry_messages`). -/
def feedbackText (error_info : String) : String :=
  "Your previous solution failed. Here's what went wrong:\n" ++ error_info
    ++ "\n\nPlease analyze the error and provide a corrected version. Remember to output only the Python code without any formatting or explanations."

/-- Diagnostic line of the feedback (exercise.py lines 88-95): a truthy
`error_message` (present and non-empty) is stated verbatim behind
`"Error: "`; otherwise, when both outputs are present, they are stated as
`"Expected: X, but got: Y"`; otherwise the line is empty. -/
def errorInfo (previous_result : ExerciseResult) : String :=
  let fromOutputs :=
    match previous_result.actual_output, previous_result.expected_output with
    | some a, some e => "Expected: " ++ pyStr e ++ ", but got: " ++ pyStr a
    | _, _ => ""
  match previous_result.error_message with
  | some m => if m == "" then fromOutputs else "Error: " ++ m
  | none => fromOutputs

/-- Retry messages (`Exercise.get_retry_messages`): the chat history so far
plus one feedback user message built from the most recent result. -/
def get_retry_messages (ex : Exercise) (previous_result : ExerciseResult) :
    List ChatMsg :=
  ex.chat_history ++ [⟨"user", feedbackText (errorInfo previous_result)⟩]

/-- Recording of one attempt (`Exercise.execute`): the attempt counter is
incremented, the grading result — with the code string stored into it — is
appended to the results, the history is seeded with the two initial
messages on the first attempt, and the assistant message holding the code
is appended. -/
def Exercise.execute (ex : Exercise) (code : String) :
    Exercise × ExerciseResult :=
  let attempts1 := ex.attempts + 1
  let result := { (ex.test_function code) with code_generated := some code }
  let hist0 := if attempts1 == 1 then get_initial_messages ex else ex.chat_history
  ({ ex with
      attempts := attempts1,
      results := ex.results ++ [result],
      chat_history := hist0 ++ [⟨"assistant", code⟩] }, result)

/-- Messages for the next attempt (`Exercise.get_current_messages`): the
seed on a fresh exercise, otherwise the retry messages built from the last
recorded result.  (With no recorded result and a non-zero counter the
Python code would raise an `IndexError` on `results[-1]`; that state is
unreachable and modelled by the empty list.) -/
def get_current_messages (ex : Exercise) : List ChatMsg :=
  if ex.attempts == 0 then get_initial_messages ex
  else
    match ex.results.getLast? with
    | some r => get_retry_messages ex r
    | none => []

/-- `Exercise.is_completed`: some recorded result passed. -/
def is_completed (ex : Exercise) : Bool :=
  ex.results.any fun r => r.status == ExerciseStatus.passed

/-- `Exercise.can_retry`: attempts remain and the exercise never passed. -/
def can_retry (ex : Exercise) : Bool :=
  decide (ex.attempts < ex.max_attempts) && !is_completed ex

/-- `Exercise.reset`: counters, results and history are cleared. -/
def Exercise.reset (ex : Exercise) : Exercise :=
  { ex with attempts := 0, results := [], chat_history := [] }

/-- System-error path of `BenchmarkRunner.run_exercise` (runner.py lines
306-311): an exception of the model call is recorded as a synthetic
`error` result and counted as an attempt. -/
def recordSystemError (ex : Exercise) (msg : String) : Exercise :=
  { ex with
    results := ex.results
      ++ [{ status := .error, error_message := some ("System error: " ++ msg) }],
    attempts := ex.attempts + 1 }

/-- One iteration of the `while exercise.can_retry()` loop of
`BenchmarkRunner.run_exercise`: under the loop guard, either an attempt is
executed and recorded, or a system error is recorded. -/
inductive LoopStep : Exercise → Exercise → Prop where
  | exec : ∀ (ex : Exercise) (code : String),
      can_retry ex = true → LoopStep ex (ex.execute code).1
  | sysError : ∀ (ex : Exercise) (msg : String),
      can_retry ex = true → LoopStep ex (recordSystemError ex msg)

/-- States the retry loop can put an exercise into, starting from `start`. -/
inductive ReachableFrom (start : Exercise) : Exercise → Prop where
  | init : ReachableFrom start start
  | step : ∀ ex ex2, ReachableFrom start ex → LoopStep ex ex2 →
      ReachableFrom start ex2

/-! ## Response sanitizer (`BenchmarkRunner.clean_code_response`) -/

/-- Reasoning-preamble cut: everything up to and including the first
`"</think>"` marker is discarded (runner.py lines 145-147). -/
def dropThink (response : String) : String :=
  match dropThroughCs "</think>".data response.data with
  | some rest => ⟨rest⟩
  | none => response

/-- Explanation phrases the scanner drops outside a fence
(runner.py lines 170-182), matched against the stripped lowercased line. -/
def explanationPhrases : List String :=
  ["here is", "here's", "this code", "this function", "explanation:",
   "solution:", "answer:", "output:", "the above", "this will", "this should"]

/-- Code tokens that keep a line outside a fence (runner.py lines 188-199),
matched against the raw line. -/
def codeTokens : List String :=
  ["def ", "import ", "from ", "=", "if ", "for ", "while ", "class ",
   "return", "print("]

/-- Whether the stripped lowercased line contains an explanation phrase. -/
def isExplanationLine (line : String) : Bool :=
  explanationPhrases.any fun p => containsSub (lowerCs (pyStripCs line.data)) p.data

/-- Whether the raw line contains a code token or is indented. -/
def looksLikeCode (line : String) : Bool :=
  (codeTokens.any fun p => containsSub line.data p.data)
    || isPre "    ".data line.data

/-- Line scanner of the sanitizer (runner.py lines 153-207): a line whose
stripped form starts with a triple backtick toggles the fence state and is
dropped; inside a fence every line is kept; outside, blank and explanation
lines are dropped, code-looking lines are kept, and any other line is kept
only once some code line has been collected. -/
def cleanLoop : List String → Bool → List String → List String
  | [], _, acc => acc
  | line :: rest, inBlock, acc =>
    if isPre "```".data (pyStripCs line.data) then cleanLoop rest (!inBlock) acc
    else if inBlock then cleanLoop rest inBlock (acc ++ [line])
    else if pyStripCs line.data == [] then cleanLoop rest inBlock acc
    else if isExplanationLine line then cleanLoop rest inBlock acc
    else if looksLikeCode line then cleanLoop rest inBlock (acc ++ [line])
    else if acc.isEmpty then cleanLoop rest inBlock acc
    else cleanLoop rest inBlock (acc ++ [line])

/-- Translation of `BenchmarkRunner.clean_code_response`: the thinking
preamble is cut, the stripped response is scanned line by line, and when
nothing survives the stripped response itself is returned. -/
def clean_code_response (response : String) : String :=
  let r := dropThink response
  let lines := (splitLinesCs (pyStripCs r.data)).map fun cs => (⟨cs⟩ : String)
  let code_lines := cleanLoop lines false []
  if code_lines.isEmpty then ⟨pyStripCs r.data⟩
  else pyStrip (String.intercalate "\n" code_lines)

/-! ## Concrete modelled programs used by the spec's example runs -/

/-- Absent setup script: empty text, nothing to run. -/
def emptySetup : SetupSem := { text := "", run := .ok [] }

/-- Semantics of `exec`/`eval` of the code `result = 2 + 2`: the exec binds
`result` to `4` and prints nothing; an assignment is not an expression, so
the eval raises a `SyntaxError`. -/
def resultAssignSem : RawCodeSem :=
  { run := fun ns => .ok (ns ++ [("result", .int 4)], ""),
    evalRun := fun _ => .error (.otherError "invalid syntax (<string>, line 1)") }

/-- Semantics of the code `print("hello")`: prints `hello`, binds nothing;
the eval returns the `None` the call evaluates to. -/
def printsHelloSem : RawCodeSem :=
  { run := fun ns => .ok (ns, "hello\n"),
    evalRun := fun _ => .ok .pynone }

/-- Semantics of a code string that is not valid Python: the exec raises a
`SyntaxError` before anything runs, and so does the eval. -/
def syntaxErrorSem : RawCodeSem :=
  { run := fun _ => .error (.otherError "invalid syntax (<string>, line 1)"),
    evalRun := fun _ => .error (.otherError "invalid syntax (<string>, line 1)") }

/-- Semantics of the code `print(5 - 8)`: prints `-3`. -/
def printsMinus3Sem : RawCodeSem :=
  { run := fun ns => .ok (ns, "-3\n"),
    evalRun := fun _ => .ok .pynone }

/-- Behaviour of the function defined by
`def add_numbers(a, b): return a + b`: two positional integer arguments
return their sum, any other arity raises a `TypeError`. -/
def addFn : PyFunc
  | .unpacked (.cons (.int a) (.cons (.int b) .nil)) => .ok (.int (a + b))
  | .single _ =>
    .error (.typeError "add_numbers() missing 1 required positional argument: 'b'")
  | .unpacked _ =>
    .error (.typeError "add_numbers() takes 2 positional arguments")

/-- Behaviour of the function defined by
`def add_numbers(a, b): return a - b`. -/
def subFn : PyFunc
  | .unpacked (.cons (.int a) (.cons (.int b) .nil)) => .ok (.int (a - b))
  | .single _ =>
    .error (.typeError "add_numbers() missing 1 required positional argument: 'b'")
  | .unpacked _ =>
    .error (.typeError "add_numbers() takes 2 positional arguments")

/-- Namespace left by executing the correct `add_numbers` solution. -/
def addNs : Except PyError (List (String × PyFunc)) := .ok [("add_numbers", addFn)]

/-- Namespace left by executing the subtracting `add_numbers` solution. -/
def subNs : Except PyError (List (String × PyFunc)) := .ok [("add_numbers", subFn)]

/-- First test case of the spec's `add_numbers` example: input `(2, 3)`,
expected output `5`. -/
def addCase1 : TestCaseDict :=
  { input := some (.tuple (ofVals [.int 2, .int 3])), output := some (.int 5) }

/-- Second test case of the spec's `add_numbers` example: input `(10, -5)`,
expected output `5`. -/
def addCase2 : TestCaseDict :=
  { input := some (.tuple (ofVals [.int 10, .int (-5)])), output := some (.int 5) }

/-- The spec's `add_numbers` test-case list `[((2,3),5), ((10,-5),5)]`. -/
def addCases : List TestCaseDict := [addCase1, addCase2]

/-- Behaviour of the function defined by
`def probe(x, y=None): return "single" if y is None else "multi"`: it
accepts one or two positional arguments and reports which convention
called it. -/
def probeFn : PyFunc
  | .single _ => .ok (.str "single")
  | .unpacked (.cons _ .nil) => .ok (.str "single")
  | .unpacked (.cons _ (.cons _ .nil)) => .ok (.str "multi")
  | .unpacked _ =>
    .error (.typeError "probe() takes from 1 to 2 positional arguments")

/-- Namespace left by executing the `probe` definition. -/
def probeNs : Except PyError (List (String × PyFunc)) := .ok [("probe", probeFn)]

/-- Test case whose input is the multi-element list `[1, 2]` and whose
expected output is what `probe` returns when its elements are unpacked. -/
def probeCase : TestCaseDict :=
  { input := some (.list (ofVals [.int 1, .int 2])), output := some (.str "multi") }

/-- Test case on which the subtracting solution fails with expected `5`
and actual `-3`: input `(1, 4)`, expected output `5`. -/
def c5Case : TestCaseDict :=
  { input := some (.tuple (ofVals [.int 1, .int 4])), output := some (.int 5) }

/-- The subtracting solution's code string. -/
def subCode : String := "def add_numbers(a, b):\n    return a - b"

/-- Exercise graded by the named-function harness on `c5Case`. -/
def c5Exercise : Exercise :=
  mkExercise "Add Two Numbers"
    "Write a function named add_numbers(a, b) that returns the sum of a and b."
    (fun _ => function_test "add_numbers" [c5Case] subNs) 3 "basic"

/-- The same exercise after the subtracting solution was recorded. -/
def c5After : Exercise := (c5Exercise.execute subCode).1

/-- Exercise graded by the raw-execution harness with expected output `5`. -/
def c5RawExercise : Exercise :=
  mkExercise "Print 5" "Print the number 5."
    (fun _ => code_execution_test (.int 5) emptySetup printsMinus3Sem) 3 "basic"

/-- The raw exercise after the wrong print was recorded. -/
def c5RawAfter : Exercise := (c5RawExercise.execute "print(5 - 8)").1

/-- A grading closure that reports every submission as a system-side
error; used to instantiate generic statements. -/
def constErrorTf : String → ExerciseResult :=
  fun _ => { status := .error, error_message := some "no harness" }

/-! ## Helper lemmas -/

/-- A pattern is a leading segment of itself followed by anything. -/
theorem isPre_append_self (pat post : List Char) : isPre pat (pat ++ post) = true := by
  induction pat with
  | nil => rfl
  | cons c cs ih => simp [isPre, ih]

/-- A list contains any pattern it starts with. -/
theorem containsSub_of_isPre (cs pat : List Char) (h : isPre pat cs = true) :
    containsSub cs pat = true := by
  cases cs with
  | nil => cases pat with
    | nil => rfl
    | cons b bs => simp [isPre] at h
  | cons c rest => simp [containsSub, h]

/-- Containment is stable under prepending. -/
theorem containsSub_append_left (pre cs pat : List Char)
    (h : containsSub cs pat = true) : containsSub (pre ++ cs) pat = true := by
  induction pre with
  | nil => simpa using h
  | cons c rest ih => simp [containsSub, ih]

/-- A string contains any pattern it starts with. -/
theorem strContains_self_append (pat post : String) :
    strContains (pat ++ post) pat = true := by
  unfold strContains
  rw [String.data_append]
  exact containsSub_of_isPre _ _ (isPre_append_self pat.data post.data)

/-- String containment is stable under prepending. -/
theorem strContains_append_left (s t pat : String)
    (h : strContains t pat = true) : strContains (s ++ t) pat = true := by
  unfold strContains at h ⊢
  rw [String.data_append]
  exact containsSub_append_left s.data t.data pat.data h

/-- Appending one element makes it the last. -/
theorem getLast?_append_one {α : Type} (l : List α) (a : α) :
    (l ++ [a]).getLast? = some a :=
  List.getLast?_concat l

/-- A completed exercise has a passed result on record
(`is_completed` is the `any`-search of `Exercise.is_completed`). -/
theorem completed_has_passed (ex : Exercise) (h : is_completed ex = true) :
    ∃ r ∈ ex.results, r.status = ExerciseStatus.passed := by
  unfold is_completed at h
  have h2 := List.any_eq_true.mp h
  obtain ⟨r, hr, hb⟩ := h2
  exact ⟨r, hr, by simpa using hb⟩

/-- The grading loop walks past a passing test case. -/
theorem runCases_pass_step (f : PyFunc) (tc : TestCaseDict)
    (rest : List TestCaseDict) (i : Nat) (h : casePasses f tc = true) :
    runCases f i (tc :: rest) = runCases f (i + 1) rest := by
  cases hi : tc.input with
  | none => simp [casePasses, hi] at h
  | some inputs =>
    cases ho : tc.output with
    | none => simp [casePasses, hi, ho] at h
    | some expected =>
      cases hg : gradedCall f inputs with
      | ok v =>
        have hpy : pyEq v expected = true := by simpa [casePasses, hi, ho, hg] using h
        simp [runCases, hi, ho, hg, hpy]
      | fallbackFailed m => simp [casePasses, hi, ho, hg] at h
      | raised m => simp [casePasses, hi, ho, hg] at h

/-- The grading loop walks past a block of passing test cases, advancing
the index by its length. -/
theorem runCases_passing_append (f : PyFunc) (pre rest : List TestCaseDict)
    (i : Nat) (h : ∀ tc ∈ pre, casePasses f tc = true) :
    runCases f i (pre ++ rest) = runCases f (i + pre.length) rest := by
  induction pre generalizing i with
  | nil => simp
  | cons tc pre2 ih =>
    rw [List.cons_append,
      runCases_pass_step f tc (pre2 ++ rest) i (h tc (by simp)),
      ih (i + 1) (fun t ht => h t (by simp [ht]))]
    congr 1
    simp only [List.length_cons]
    omega

/-- Characterisation of a failed grading run: there is a first mismatching
case, every earlier case passes, and the result records the 1-based index
of that case together with its expected and actual values. -/
theorem runCases_failed_spec (f : PyFunc) :
    ∀ (cases2 : List TestCaseDict) (i : Nat),
      (runCases f i cases2).status = ExerciseStatus.failed →
      ∃ (n : Nat) (tc : TestCaseDict) (inputs expected actual : Value),
        cases2[n]? = some tc ∧
        (∀ m, m < n → ∃ tcm, cases2[m]? = some tcm ∧ casePasses f tcm = true) ∧
        tc.input = some inputs ∧ tc.output = some expected ∧
        gradedCall f inputs = .ok actual ∧ pyEq actual expected = false ∧
        runCases f i cases2 =
          { status := .failed, expected_output := some expected,
            actual_output := some actual,
            error_message := some ("Test case " ++ toString (i + n + 1) ++ " failed") } := by
  intro cases2
  induction cases2 with
  | nil => intro i h; simp [runCases] at h
  | cons tc rest ih =>
    intro i h
    cases hi : tc.input with
    | none => simp [runCases, hi] at h
    | some inputs =>
      cases ho : tc.output with
      | none => simp [runCases, hi, ho] at h
      | some expected =>
        cases hg : gradedCall f inputs with
        | fallbackFailed m => simp [runCases, hi, ho, hg] at h
        | raised m => simp [runCases, hi, ho, hg] at h
        | ok actual =>
          by_cases hpy : pyEq actual expected = true
          · have hstep : runCases f i (tc :: rest) = runCases f (i + 1) rest := by
              simp [runCases, hi, ho, hg, hpy]
            rw [hstep] at h
            obtain ⟨n, tc2, inputs2, expected2, actual2, hget, hpre, h1, h2, h3, h4, hres⟩ :=
              ih (i + 1) h
            refine ⟨n + 1, tc2, inputs2, expected2, actual2, ?_, ?_, h1, h2, h3, h4, ?_⟩
            · simpa using hget
            · intro m hm
              cases m with
              | zero => exact ⟨tc, by simp, by simp [casePasses, hi, ho, hg, hpy]⟩
              | succ m2 =>
                obtain ⟨tcm, hgm, hpm⟩ := hpre m2 (by omega)
                exact ⟨tcm, by simpa using hgm, hpm⟩
            · have harith : i + 1 + n + 1 = i + (n + 1) + 1 := by omega
              rw [hstep, hres, harith]
          · have hpy2 : pyEq actual expected = false := by
              simpa using hpy
            refine ⟨0, tc, inputs, expected, actual, by simp,
              fun m hm => absurd hm (Nat.not_lt_zero m), hi, ho, hg, hpy2, ?_⟩
            simp [runCases, hi, ho, hg, hpy2]

set_option maxRecDepth 100000

/-- C7: in every state reachable by the orchestrator's per-exercise retry
loop, `attempts <= max_attempts` holds, and `is_completed()` returns true
only if some recorded result has status `passed`. -/
theorem exercise_loop_invariants :
    ∀ (name description : String) (tf : String → ExerciseResult)
      (max_attempts : Nat) (difficulty : String) (ex : Exercise),
      ReachableFrom (mkExercise name description tf max_attempts difficulty) ex →
      ex.attempts ≤ ex.max_attempts ∧
      (is_completed ex = true →
        ∃ r ∈ ex.results, r.status = ExerciseStatus.passed) := by
  intro name description tf m d ex h
  induction h with
  | init => exact ⟨by simp [mkExercise], completed_has_passed _⟩
  | step ex1 ex2 hreach hstep ih =>
    refine ⟨?_, completed_has_passed ex2⟩
    cases hstep with
    | exec code hc =>
      have hlt : ex1.attempts < ex1.max_attempts :=
        of_decide_eq_true ((Bool.and_eq_true _ _).mp hc).1
      simp [Exercise.execute]
      omega
    | sysError msg hc =>
      have hlt : ex1.attempts < ex1.max_attempts :=
        of_decide_eq_true ((Bool.and_eq_true _ _).mp hc).1
      simp [recordSystemError]
      omega

/-- Closed instance of C7: the freshly constructed exercise is reachable
and satisfies both invariants. -/
theorem exercise_loop_invariants_witness :
    (mkExercise "example" "desc" constErrorTf 3 "easy").attempts ≤
      (mkExercise "example" "desc" constErrorTf 3 "easy").max_attempts ∧
    (is_completed (mkExercise "example" "desc" constErrorTf 3 "easy") = true →
      ∃ r ∈ (mkExercise "example" "desc" constErrorTf 3 "easy").results,
        r.status = ExerciseStatus.passed) :=
  exercise_loop_invariants "example" "desc" constErrorTf 3 "easy" _ ReachableFrom.init

/-- C8: `len(results) == attempts` holds after construction and is
preserved by `Exercise.execute`, by the orchestrator's system-error
recording path, and by `Exercise.reset`. -/
theorem results_length_invariant :
    (∀ (name description : String) (tf : String → ExerciseResult)
      (max_attempts : Nat) (difficulty : String),
      (mkExercise name description tf max_attempts difficulty).results.length =
        (mkExercise name description tf max_attempts difficulty).attempts) ∧
    (∀ (ex : Exercise) (code : String),
      ex.results.length = ex.attempts →
      (ex.execute code).1.results.length = (ex.execute code).1.attempts) ∧
    (∀ (ex : Exercise) (msg : String),
      ex.results.length = ex.attempts →
      (recordSystemError ex msg).results.length = (recordSystemError ex msg).attempts) ∧
    (∀ ex : Exercise, ex.reset.results.length = ex.reset.attempts) := by
  refine ⟨?_, ?_, ?_, ?_⟩
  · intro name description tf m d
    simp [mkExercise]
  · intro ex code h
    simp [Exercise.execute, h]
  · intro ex msg h
    simp [recordSystemError, h]
  · intro ex
    simp [Exercise.reset]

/-- Closed instance of C8: recording the subtracting solution preserves
the invariant. -/
theorem results_length_invariant_witness :
    (c5Exercise.execute subCode).1.results.length =
      (c5Exercise.execute subCode).1.attempts :=
  results_length_invariant.2.1 c5Exercise subCode (by decide)

/-- C9: fence-marker lines toggle the in-fence state and are dropped,
every line strictly inside a fence is kept verbatim, and the sanitizer
maps the fenced block to exactly the enclosed code. -/
theorem sanitizer_fence_roundtrip :
    (∀ (line : String) (rest : List String) (inBlock : Bool) (acc : List String),
      isPre "```".data (pyStripCs line.data) = true →
      cleanLoop (line :: rest) inBlock acc = cleanLoop rest (!inBlock) acc) ∧
    (∀ (line : String) (rest : List String) (acc : List String),
      isPre "```".data (pyStripCs line.data) = false →
      cleanLoop (line :: rest) true acc = cleanLoop rest true (acc ++ [line])) ∧
    clean_code_response "```\ncode\n```" = "code" := by
  refine ⟨?_, ?_, by decide⟩
  · intro line rest inBlock acc h
    simp [cleanLoop, h]
  · intro line rest acc h
    simp [cleanLoop, h]

/-- Closed instance of C9: a language-tagged fence marker is dropped and
toggles the scanner into the fence. -/
theorem sanitizer_fence_roundtrip_witness :
    cleanLoop ["```python"] false [] = cleanLoop [] true [] :=
  sanitizer_fence_roundtrip.1 "```python" [] false [] (by decide)

/-- C10: every `failed` result of the named-function harness carries the
non-`None` message `"Test case N failed"`, where `N` is the 1-based index
of the first test case whose actual value differs from the expected one
(every earlier case passes), alongside the expected and actual outputs. -/
theorem failed_result_error_message :
    ∀ (fname : String) (cases2 : List TestCaseDict)
      (codeNs : Except PyError (List (String × PyFunc))),
      (function_test fname cases2 codeNs).status = ExerciseStatus.failed →
      (function_test fname cases2 codeNs).error_message ≠ none ∧
      ∃ (n : Nat) (ns : List (String × PyFunc)) (f : PyFunc) (tc : TestCaseDict)
        (inputs expected actual : Value),
        codeNs = .ok ns ∧ lookupNS ns fname = some f ∧
        cases2[n]? = some tc ∧
        (∀ m, m < n → ∃ tcm, cases2[m]? = some tcm ∧ casePasses f tcm = true) ∧
        tc.input = some inputs ∧ tc.output = some expected ∧
        gradedCall f inputs = .ok actual ∧ pyEq actual expected = false ∧
        (function_test fname cases2 codeNs).error_message =
          some ("Test case " ++ toString (n + 1) ++ " failed") ∧
        (function_test fname cases2 codeNs).expected_output = some expected ∧
        (function_test fname cases2 codeNs).actual_output = some actual := by
  intro fname cases2 codeNs h
  cases codeNs with
  | error e => simp [function_test] at h
  | ok ns =>
    cases hl : lookupNS ns fname with
    | none => simp [function_test, hl] at h
    | some f =>
      have hft : function_test fname cases2 (.ok ns) = runCases f 0 cases2 := by
        simp [function_test, hl]
      have hrun : (runCases f 0 cases2).status = ExerciseStatus.failed := by
        rw [← hft]; exact h
      obtain ⟨n, tc, inputs, expected, actual, hget, hpre, h1, h2, h3, h4, hres⟩ :=
        runCases_failed_spec f cases2 0 hrun
      refine ⟨?_, n, ns, f, tc, inputs, expected, actual, rfl, hl, hget, hpre,
        h1, h2, h3, h4, ?_, ?_, ?_⟩
      · rw [hft, hres]; simp
      · rw [hft, hres]; simp
      · rw [hft, hres]
      · rw [hft, hres]

/-- Closed instance of C10 at the subtracting `add_numbers` solution. -/
theorem failed_result_error_message_witness :
    (function_test "add_numbers" addCases subNs).error_message ≠ none ∧
    ∃ (n : Nat) (ns : List (String × PyFunc)) (f : PyFunc) (tc : TestCaseDict)
      (inputs expected actual : Value),
      subNs = .ok ns ∧ lookupNS ns "add_numbers" = some f ∧
      addCases[n]? = some tc ∧
      (∀ m, m < n → ∃ tcm, addCases[m]? = some tcm ∧ casePasses f tcm = true) ∧
      tc.input = some inputs ∧ tc.output = some expected ∧
      gradedCall f inputs = .ok actual ∧ pyEq actual expected = false ∧
      (function_test "add_numbers" addCases subNs).error_message =
        some ("Test case " ++ toString (n + 1) ++ " failed") ∧
      (function_test "add_numbers" addCases subNs).expected_output = some expected ∧
      (function_test "add_numbers" addCases subNs).actual_output = some actual :=
  failed_result_error_message "add_numbers" addCases subNs (by decide)

/-- C6 counterexample: on the spec's cases `[((2,3),5), ((10,-5),5)]` the
subtracting solution fails the first case with actual output `-1`, not the
claimed `-3`. -/
theorem function_grading_shortcircuit_cex :
    function_test "add_numbers" addCases subNs =
      { status := .failed, expected_output := some (.int 5),
        actual_output := some (.int (-1)),
        error_message := some "Test case 1 failed" } ∧
    (function_test "add_numbers" addCases subNs).actual_output ≠
      some (.int (-3)) := by decide

/-- C6 (amended): the named-function harness grades cases in order,
short-circuits at the first mismatch — reporting its 1-based index,
expected and actual values, for any continuation of the case list — and
passes when every case matches; the correct `add_numbers` solution passes
the spec's cases, and the subtracting solution fails the first case with
expected `5` and actual `-1` without evaluating the remaining cases. -/
theorem function_grading_shortcircuit :
    (∀ (fname : String) (f : PyFunc) (ns : List (String × PyFunc))
      (pre rest : List TestCaseDict) (tc : TestCaseDict)
      (inputs expected actual : Value),
      lookupNS ns fname = some f →
      (∀ tc2 ∈ pre, casePasses f tc2 = true) →
      tc.input = some inputs → tc.output = some expected →
      gradedCall f inputs = .ok actual → pyEq actual expected = false →
      function_test fname (pre ++ tc :: rest) (.ok ns) =
        { status := .failed, expected_output := some expected,
          actual_output := some actual,
          error_message :=
            some ("Test case " ++ toString (pre.length + 1) ++ " failed") }) ∧
    (∀ (fname : String) (f : PyFunc) (ns : List (String × PyFunc))
      (cases2 : List TestCaseDict),
      lookupNS ns fname = some f →
      (∀ tc2 ∈ cases2, casePasses f tc2 = true) →
      function_test fname cases2 (.ok ns) =
        { status := .passed, expected_output := some (.str "All test cases passed"),
          actual_output := some (.str "All test cases passed") }) ∧
    function_test "add_numbers" addCases addNs =
      { status := .passed, expected_output := some (.str "All test cases passed"),
        actual_output := some (.str "All test cases passed") } ∧
    (∀ rest : List TestCaseDict,
      function_test "add_numbers" (addCase1 :: rest) subNs =
        { status := .failed, expected_output := some (.int 5),
          actual_output := some (.int (-1)),
          error_message := some "Test case 1 failed" }) := by
  refine ⟨?_, ?_, by decide, ?_⟩
  · intro fname f ns pre rest tc inputs expected actual hl hpre hi ho hg hpy
    have hft : function_test fname (pre ++ tc :: rest) (.ok ns) =
        runCases f 0 (pre ++ tc :: rest) := by
      simp [function_test, hl]
    rw [hft, runCases_passing_append f pre (tc :: rest) 0 hpre]
    simp [runCases, hi, ho, hg, hpy]
  · intro fname f ns cases2 hl hall
    have hft : function_test fname cases2 (.ok ns) = runCases f 0 cases2 := by
      simp [function_test, hl]
    have h2 : runCases f 0 (cases2 ++ []) = runCases f (0 + cases2.length) [] :=
      runCases_passing_append f cases2 [] 0 hall
    rw [List.append_nil] at h2
    rw [hft, h2]
    rfl
  · intro rest
    have hft : function_test "add_numbers" (addCase1 :: rest) subNs =
        runCases subFn 0 (addCase1 :: rest) := by
      simp [function_test, subNs, lookupNS]
    rw [hft]
    rfl

/-- Closed instance of C6: the subtracting solution fails the first case,
with the second case still in the list. -/
theorem function_grading_shortcircuit_witness :
    function_test "add_numbers" ([] ++ addCase1 :: [addCase2]) subNs =
      { status := .failed, expected_output := some (.int 5),
        actual_output := some (.int (-1)),
        error_message :=
          some ("Test case " ++ toString (([] : List TestCaseDict).length + 1)
            ++ " failed") } :=
  function_grading_shortcircuit.1 "add_numbers" subFn [("add_numbers", subFn)]
    [] [addCase2] addCase1 (.tuple (ofVals [.int 2, .int 3])) (.int 5) (.int (-1))
    (by simp [lookupNS]) (by simp) (by decide) (by decide) (by decide) (by decide)

/-- C4: the feedback for a retry is derived from the most recent result
with this precedence — a (non-empty) error message is stated verbatim
behind `"Error: "`; otherwise, when both outputs are present, they are
stated in the form `"Expected: X, but got: Y"`, whose text contains
`"Expected: X"` and `"got: Y"`. -/
theorem retry_feedback_precedence :
    (∀ (ex : Exercise) (prev : ExerciseResult) (m : String),
      prev.error_message = some m → m ≠ "" →
      get_retry_messages ex prev =
        ex.chat_history ++ [⟨"user", feedbackText ("Error: " ++ m)⟩]) ∧
    (∀ (ex : Exercise) (prev : ExerciseResult) (e a : Value),
      prev.error_message = none → prev.expected_output = some e →
      prev.actual_output = some a →
      get_retry_messages ex prev =
        ex.chat_history ++
          [⟨"user", feedbackText ("Expected: " ++ pyStr e ++ ", but got: "
            ++ pyStr a)⟩] ∧
      strContains (feedbackText ("Expected: " ++ pyStr e ++ ", but got: " ++ pyStr a))
        ("Expected: " ++ pyStr e) = true ∧
      strContains (feedbackText ("Expected: " ++ pyStr e ++ ", but got: " ++ pyStr a))
        ("got: " ++ pyStr a) = true) := by
  constructor
  · intro ex prev m hm hne
    have hbe : (m == "") = false := by simpa using hne
    simp [get_retry_messages, errorInfo, hm, hbe]
  · intro ex prev e a hm he ha
    refine ⟨by simp [get_retry_messages, errorInfo, hm, he, ha], ?_, ?_⟩
    · unfold feedbackText
      rw [String.append_assoc]
      apply strContains_append_left
      simp only [String.append_assoc]
      rw [← String.append_assoc]
      exact strContains_self_append _ _
    · have hsplit : (", but got: " : String) = ", but " ++ "got: " := by decide
      unfold feedbackText
      rw [hsplit]
      simp only [String.append_assoc]
      apply strContains_append_left
      apply strContains_append_left
      apply strContains_append_left
      apply strContains_append_left
      rw [← String.append_assoc]
      exact strContains_self_append _ _

/-- Closed instance of C4: both feedback branches at concrete results. -/
theorem retry_feedback_precedence_witness :
    get_retry_messages c5RawExercise
        { status := .error, error_message := some "boom" } =
      c5RawExercise.chat_history ++ [⟨"user", feedbackText ("Error: " ++ "boom")⟩] ∧
    get_retry_messages c5RawExercise
        { status := .failed, expected_output := some (.int 5),
          actual_output := some (.int (-3)) } =
      c5RawExercise.chat_history ++
        [⟨"user", feedbackText ("Expected: " ++ pyStr (.int 5) ++ ", but got: "
          ++ pyStr (.int (-3)))⟩] :=
  ⟨retry_feedback_precedence.1 c5RawExercise _ "boom" rfl (by decide),
   (retry_feedback_precedence.2 c5RawExercise _ (.int 5) (.int (-3)) rfl rfl rfl).1⟩

/-- C5 counterexample: after the named-function harness records `Failed`
with expected `5` and actual `-3`, the result carries the error message
`"Test case 1 failed"`, so the next feedback message states that error and
contains neither literal `5` nor `-3`. -/
theorem retry_feedback_literals_cex :
    c5After.results.getLast? = some
      { status := .failed, expected_output := some (.int 5),
        actual_output := some (.int (-3)),
        error_message := some "Test case 1 failed",
        code_generated := some subCode } ∧
    ((get_current_messages c5After).getLast?.map
      fun msg => strContains msg.content "5" || strContains msg.content "-3") =
      some false := by decide

/-- C5 (amended): when the most recent result is `Failed` with expected
`5`, actual `-3` and no error message, the next feedback message contains
both literal values; a `Failed` result carrying an error message (as those
of the named-function harness do) yields feedback stating that error
instead. -/
theorem retry_feedback_literals :
    ∀ (ex : Exercise) (r : ExerciseResult),
      ex.attempts ≠ 0 → ex.results.getLast? = some r →
      r.status = ExerciseStatus.failed → r.error_message = none →
      r.expected_output = some (.int 5) → r.actual_output = some (.int (-3)) →
      (get_current_messages ex).getLast? =
        some ⟨"user", feedbackText "Expected: 5, but got: -3"⟩ ∧
      strContains (feedbackText "Expected: 5, but got: -3") "5" = true ∧
      strContains (feedbackText "Expected: 5, but got: -3") "-3" = true := by
  intro ex r hat hlast hst herr hexp hact
  have hb : (ex.attempts == 0) = false := by simpa using hat
  have hinfo : errorInfo r = "Expected: 5, but got: -3" := by
    simp only [errorInfo, herr, hexp, hact]
    decide
  refine ⟨?_, by decide, by decide⟩
  have hmsgs : get_current_messages ex =
      ex.chat_history ++ [⟨"user", feedbackText (errorInfo r)⟩] := by
    simp [get_current_messages, hb, hlast, get_retry_messages]
  rw [hmsgs, hinfo, getLast?_append_one]

/-- Closed instance of the amended C5: the raw-execution harness records
`Failed(5, -3)` with no error message, and the feedback contains both
values. -/
theorem retry_feedback_literals_witness :
    (get_current_messages c5RawAfter).getLast? =
      some ⟨"user", feedbackText "Expected: 5, but got: -3"⟩ ∧
    strContains (feedbackText "Expected: 5, but got: -3") "5" = true ∧
    strContains (feedbackText "Expected: 5, but got: -3") "-3" = true :=
  retry_feedback_literals c5RawAfter
    { status := .failed, expected_output := some (.int 5),
      actual_output := some (.int (-3)), code_generated := some "print(5 - 8)" }
    (by decide) (by decide) rfl rfl rfl rfl

/-- C1: the raw-execution harness grades with the three-way precedence —
non-empty captured stdout is coerced to the type of the expected output
(raw text on coercion failure); with no output the bound variable
`result` is used; failing that the value of evaluating the code as an
expression is used — and the comparison of the selected value decides
passed/failed; on `result = 2 + 2` with expected `4` it passes through the
bound-variable path (no stdout, `result` bound to `4`). -/
theorem raw_harness_grading_precedence :
    (∀ (expected : Value) (setup : SetupSem) (code : RawCodeSem) (ns0 ns : NS)
      (rawOut : String),
      (if pyStrip setup.text == "" then Except.ok ([] : NS) else setup.run) =
        Except.ok ns0 →
      code.run ns0 = .ok (ns, rawOut) →
      (pyStrip rawOut ≠ "" →
        (code_execution_test expected setup code).actual_output =
          some (match coerce expected (pyStrip rawOut) with
                | some v => v
                | none => Value.str (pyStrip rawOut))) ∧
      (∀ v : Value, pyStrip rawOut = "" → lookupNS ns "result" = some v →
        (code_execution_test expected setup code).actual_output = some v) ∧
      (∀ v : Value, pyStrip rawOut = "" → lookupNS ns "result" = none →
        code.evalRun ns = .ok v →
        (code_execution_test expected setup code).actual_output = some v) ∧
      (∀ v : Value,
        (code_execution_test expected setup code).actual_output = some v →
        (code_execution_test expected setup code).status =
          if pyEq v expected then ExerciseStatus.passed
          else ExerciseStatus.failed)) ∧
    code_execution_test (.int 4) emptySetup resultAssignSem =
      { status := .passed, expected_output := some (.int 4),
        actual_output := some (.int 4) } ∧
    resultAssignSem.run [] = .ok ([("result", Value.int 4)], "") ∧
    lookupNS ([("result", Value.int 4)] : NS) "result" = some (.int 4) ∧
    pyStrip "" = "" := by
  refine ⟨?_, by decide, by decide, by decide, by decide⟩
  intro expected setup code ns0 ns rawOut h1 h2
  refine ⟨?_, ?_, ?_, ?_⟩
  · intro hne
    have hb : (pyStrip rawOut == "") = false := by simpa using hne
    simp only [code_execution_test, h1, h2, hb]
    split
    · rename_i hcontra
      exact absurd hcontra (by simp)
    · split <;> rfl
  · intro v h0 hres
    have hb : (pyStrip rawOut == "") = true := by simp [h0]
    simp only [code_execution_test, h1, h2, hb, hres]
    split
    · split <;> rfl
    · rename_i hcontra
      exact absurd trivial hcontra
  · intro v h0 hres heval
    have hb : (pyStrip rawOut == "") = true := by simp [h0]
    simp only [code_execution_test, h1, h2, hb, hres, heval]
    split
    · split <;> rfl
    · rename_i hcontra
      exact absurd trivial hcontra
  · intro v hv
    revert hv
    simp only [code_execution_test, h1, h2]
    split <;> split <;> rename_i hpe <;> intro hv <;> simp at hv <;>
      subst hv <;> simp [hpe]

/-- Closed instance of C1: the `result = 2 + 2` run selects the bound
variable. -/
theorem raw_harness_grading_precedence_witness :
    (code_execution_test (.int 4) emptySetup resultAssignSem).actual_output =
      some (.int 4) :=
  ((raw_harness_grading_precedence.1 (.int 4) emptySetup resultAssignSem []
      [("result", Value.int 4)] "" (by decide) (by decide)).2.1 (.int 4)
    (by decide) (by decide))

/-- C2 counterexample: the input `[1, 2]` is a multi-element ordered
sequence, and unpacking it would return the expected `"multi"`, but the
harness passes a list as a single argument, so grading fails with actual
`"single"` instead of passing as the claimed rule implies. -/
theorem function_input_convention_cex :
    function_test "probe" [probeCase] probeNs =
      { status := .failed, expected_output := some (.str "multi"),
        actual_output := some (.str "single"),
        error_message := some "Test case 1 failed" } ∧
    probeCase.input = some (.list (ofVals [.int 1, .int 2])) ∧
    1 < vlen (ofVals [.int 1, .int 2]) ∧
    probeFn (.unpacked (ofVals [.int 1, .int 2])) = .ok (.str "multi") := by
  refine ⟨by decide, by decide, by decide, by decide⟩

/-- C2 (amended): only a tuple of more than one element is unpacked by the
first call; lists and everything else are passed as a single argument; a
`TypeError` triggers exactly one fallback with the opposite convention
(single for long tuples, unpacked for lists, the same single call again
for non-sequence inputs), after which the harness reports `Error` with
`"Test case N failed to execute:"` and the first `TypeError`'s message. -/
theorem function_input_convention_amended :
    (∀ (f : PyFunc) (vs : ValueList) (v : Value), 1 < vlen vs →
      f (.unpacked vs) = .ok v → gradedCall f (.tuple vs) = .ok v) ∧
    (∀ (f : PyFunc) (vs : ValueList) (m : String) (v : Value), 1 < vlen vs →
      f (.unpacked vs) = .error (.typeError m) →
      f (.single (.tuple vs)) = .ok v → gradedCall f (.tuple vs) = .ok v) ∧
    (∀ (f : PyFunc) (vs : ValueList) (v : Value),
      f (.single (.list vs)) = .ok v → gradedCall f (.list vs) = .ok v) ∧
    (∀ (f : PyFunc) (vs : ValueList) (m : String) (v : Value),
      f (.single (.list vs)) = .error (.typeError m) →
      f (.unpacked vs) = .ok v → gradedCall f (.list vs) = .ok v) ∧
    (∀ (f : PyFunc) (k : Int) (m : String),
      f (.single (.int k)) = .error (.typeError m) →
      gradedCall f (.int k) = .fallbackFailed m) ∧
    (∀ (f : PyFunc) (fname : String) (vs : ValueList) (m : String) (e2 : PyError)
      (expected : Value), 1 < vlen vs →
      f (.unpacked vs) = .error (.typeError m) →
      f (.single (.tuple vs)) = .error e2 →
      function_test fname [{ input := some (.tuple vs), output := some expected }]
          (.ok [(fname, f)]) =
        { status := .error,
          error_message := some ("Test case 1 failed to execute: " ++ m) }) := by
  refine ⟨?_, ?_, ?_, ?_, ?_, ?_⟩
  · intro f vs v hlen hok
    simp [gradedCall, primaryCall, hlen, hok]
  · intro f vs m v hlen hte hok
    simp [gradedCall, primaryCall, fallbackCall, hlen, hte, hok]
  · intro f vs v hok
    simp [gradedCall, primaryCall, hok]
  · intro f vs m v hte hok
    simp [gradedCall, primaryCall, fallbackCall, hte, hok]
  · intro f k m hte
    simp [gradedCall, primaryCall, fallbackCall, hte]
  · intro f fname vs m e2 expected hlen hte he2
    have hg : gradedCall f (.tuple vs) = .fallbackFailed m := by
      simp [gradedCall, primaryCall, fallbackCall, hlen, hte, he2]
    have hrun : runCases f 0
        [{ input := some (.tuple vs), output := some expected }] =
        { status := .error,
          error_message := some ("Test case " ++ toString (0 + 1)
            ++ " failed to execute: " ++ m) } := by
      simp [runCases, hg]
    have hmsg : ("Test case " ++ toString (0 + 1) ++ " failed to execute: " ++ m) =
        ("Test case 1 failed to execute: " ++ m) := by
      congr 1
    simp [function_test, lookupNS, hrun, hmsg]

/-- Closed instance of the amended C2: the multi-element list `[1, 2]` is
passed to `probe` as a single argument. -/
theorem function_input_convention_amended_witness :
    gradedCall probeFn (.list (ofVals [.int 1, .int 2])) = .ok (.str "single") :=
  function_input_convention_amended.2.2.1 probeFn (ofVals [.int 1, .int 2])
    (.str "single") (by decide)

/-- C3 counterexample: with expected output `4` and code printing `hello`,
the coercion `int("hello")` raises, yet the harness reports `Failed` with
the raw text as actual output and no error message — not `Error` with the
exception's message. -/
theorem raw_harness_error_reporting_cex :
    coerce (.int 4) "hello" = none ∧
    (code_execution_test (.int 4) emptySetup printsHelloSem).status =
      ExerciseStatus.failed ∧
    (code_execution_test (.int 4) emptySetup printsHelloSem).error_message =
      none ∧
    (code_execution_test (.int 4) emptySetup printsHelloSem).actual_output =
      some (.str "hello") := by
  refine ⟨by decide, by decide, by decide, by decide⟩

/-- C3 (amended): exceptions of the setup or of the execution of the
submitted code are caught and reported as `Error` with the exception's
message; an exception during coercion of captured output is caught and
the raw text is compared instead (never an `Error`); the harness is total
over the three statuses, and a syntax error yields `Error` with a
non-empty message. -/
theorem raw_harness_error_reporting :
    (∀ (expected : Value) (setup : SetupSem) (code : RawCodeSem) (e : PyError),
      pyStrip setup.text ≠ "" → setup.run = .error e →
      code_execution_test expected setup code =
        { status := .error, expected_output := some expected,
          error_message := some e.msg }) ∧
    (∀ (expected : Value) (setup : SetupSem) (code : RawCodeSem) (ns0 : NS)
      (e : PyError),
      (if pyStrip setup.text == "" then Except.ok ([] : NS) else setup.run) =
        Except.ok ns0 →
      code.run ns0 = .error e →
      code_execution_test expected setup code =
        { status := .error, expected_output := some expected,
          error_message := some e.msg }) ∧
    (∀ (expected : Value) (setup : SetupSem) (code : RawCodeSem) (ns0 ns : NS)
      (rawOut : String),
      (if pyStrip setup.text == "" then Except.ok ([] : NS) else setup.run) =
        Except.ok ns0 →
      code.run ns0 = .ok (ns, rawOut) →
      pyStrip rawOut ≠ "" → coerce expected (pyStrip rawOut) = none →
      (code_execution_test expected setup code).actual_output =
        some (.str (pyStrip rawOut)) ∧
      (code_execution_test expected setup code).error_message = none ∧
      (code_execution_test expected setup code).status ≠ ExerciseStatus.error) ∧
    (∀ (expected : Value) (setup : SetupSem) (code : RawCodeSem),
      (code_execution_test expected setup code).status = ExerciseStatus.passed ∨
      (code_execution_test expected setup code).status = ExerciseStatus.failed ∨
      (code_execution_test expected setup code).status = ExerciseStatus.error) ∧
    (code_execution_test (.int 4) emptySetup syntaxErrorSem =
      { status := .error, expected_output := some (.int 4),
        error_message := some "invalid syntax (<string>, line 1)" } ∧
      "invalid syntax (<string>, line 1)" ≠ "") := by
  refine ⟨?_, ?_, ?_, ?_, by decide, by decide⟩
  · intro expected setup code e hne hrun
    have hb : (pyStrip setup.text == "") = false := by simpa using hne
    simp [code_execution_test, hb, hrun]
  · intro expected setup code ns0 e h1 h2
    simp only [code_execution_test, h1, h2]
  · intro expected setup code ns0 ns rawOut h1 h2 hne hco
    have hb : (pyStrip rawOut == "") = false := by simpa using hne
    refine ⟨?_, ?_, ?_⟩ <;>
      · simp only [code_execution_test, h1, h2, hb, hco]
        split
        · rename_i hcontra
          exact absurd hcontra (by simp)
        · split <;> simp
  · intro expected setup code
    cases h1 : (if pyStrip setup.text == "" then Except.ok ([] : NS)
        else setup.run) with
    | error e =>
      simp only [code_execution_test, h1]
      simp
    | ok ns0 =>
      cases h2 : code.run ns0 with
      | error e =>
        simp only [code_execution_test, h1, h2]
        simp
      | ok p =>
        obtain ⟨ns, rawOut⟩ := p
        simp only [code_execution_test, h1, h2]
        split <;> split <;> simp

/-- Closed instance of the amended C3: the syntax-error run is reported as
`Error` carrying the exception's message. -/
theorem raw_harness_error_reporting_witness :
    code_execution_test (.int 4) emptySetup syntaxErrorSem =
      { status := .error, expected_output := some (.int 4),
        error_message := some "invalid syntax (<string>, line 1)" } :=
  raw_harness_error_reporting.2.1 (.int 4) emptySetup syntaxErrorSem []
    (.otherError "invalid syntax (<string>, line 1)") (by decide) (by decide)
